import Mathlib

set_option maxHeartbeats 1000000
set_option autoImplicit false

/-!
Shallow embedding of `src/api/give.js`: a meme-proxy HTTP handler with an
in-process TTL cache, a primary fetcher (Reddit hot listing) and a fallback
fetcher (meme-api aggregator). Stateful code is modelled by explicit state
passing: the cache is threaded through every operation, `Date.now()` becomes
an explicit `now : Int` parameter (milliseconds), and the two outbound HTTP
calls are modelled by an oracle `World` describing what each call would
return, together with a trace of the calls actually issued. JavaScript
exceptions become `Except String`; JavaScript numbers that may be `NaN`
become the type `JSNum`.
-/

/-- A JavaScript number as used by the handler: either `NaN` (from
`parseInt` on a non-numeric string) or an integer. -/
inductive JSNum where
  | nan : JSNum
  | num : Int → JSNum
deriving DecidableEq

/-- The JS comparison `a < b` for a possibly-NaN `a` and an integer `b`;
every comparison with `NaN` is false. -/
def JSNum.ltNum : JSNum → Int → Bool
  | .nan, _ => false
  | .num a, b => decide (a < b)

/-- The JS comparison `a > b` for a possibly-NaN `a` and an integer `b`;
every comparison with `NaN` is false. -/
def JSNum.gtNum : JSNum → Int → Bool
  | .nan, _ => false
  | .num a, b => decide (b < a)

/-- JS multiplication by an integer constant; `NaN * _ = NaN`. -/
def JSNum.mulInt : JSNum → Int → JSNum
  | .nan, _ => .nan
  | .num a, b => .num (a * b)

/-- `Math.min` against an integer constant; `Math.min(NaN, _) = NaN`. -/
def JSNum.minInt : JSNum → Int → JSNum
  | .nan, _ => .nan
  | .num a, b => .num (min a b)

/-- JS stringification of a number as used in template literals. -/
def JSNum.toStr : JSNum → String
  | .nan => "NaN"
  | .num a => toString a

/-- Value of a list of decimal digit characters. -/
def decValue (ds : List Char) : Nat :=
  ds.foldl (fun a c => a * 10 + (c.toNat - 48)) 0

/-- Value of a hexadecimal digit character, if it is one. -/
def hexVal (c : Char) : Option Nat :=
  if '0' ≤ c ∧ c ≤ '9' then some (c.toNat - 48)
  else if 'a' ≤ c ∧ c ≤ 'f' then some (c.toNat - 87)
  else if 'A' ≤ c ∧ c ≤ 'F' then some (c.toNat - 55)
  else none

/-- JS `parseInt(s)` with no radix argument: skip leading whitespace, read
an optional sign, then either a `0x`-prefixed hexadecimal or the longest
decimal digit prefix; `NaN` when no digit is found. -/
def jsParseInt (s : String) : JSNum :=
  let l := s.toList.dropWhile Char.isWhitespace
  let signAndRest : Int × List Char :=
    match l with
    | '-' :: rest => (-1, rest)
    | '+' :: rest => (1, rest)
    | _ => (1, l)
  let sign := signAndRest.1
  let l₁ := signAndRest.2
  match l₁ with
  | '0' :: c :: rest =>
    if c == 'x' || c == 'X' then
      let ds := rest.takeWhile (fun ch => (hexVal ch).isSome)
      if ds.isEmpty then .nan
      else .num (sign * (ds.foldl (fun a ch => a * 16 + ((hexVal ch).getD 0)) 0 : Nat))
    else
      .num (sign * (decValue (l₁.takeWhile Char.isDigit) : Nat))
  | _ =>
    let ds := l₁.takeWhile Char.isDigit
    if ds.isEmpty then .nan else .num (sign * (decValue ds : Nat))

/-- Drop whitespace from both ends of a character list. -/
def trimChars (l : List Char) : List Char :=
  ((l.dropWhile Char.isWhitespace).reverse.dropWhile Char.isWhitespace).reverse

/-- Recognizer for an optional exponent part followed by end of input:
either nothing, or `e`/`E`, an optional sign and at least one digit. -/
def isExpPart : List Char → Bool
  | [] => true
  | 'e' :: rest =>
      let r₂ := match rest with
        | '+' :: r => r
        | '-' :: r => r
        | _ => rest
      !(r₂.takeWhile Char.isDigit).isEmpty && (r₂.dropWhile Char.isDigit).isEmpty
  | 'E' :: rest =>
      let r₂ := match rest with
        | '+' :: r => r
        | '-' :: r => r
        | _ => rest
      !(r₂.takeWhile Char.isDigit).isEmpty && (r₂.dropWhile Char.isDigit).isEmpty
  | _ => false

/-- Recognizer for an unsigned decimal numeric literal: digits with an
optional fraction and exponent, or a fraction-first literal. -/
def isUnsignedDecLit (l : List Char) : Bool :=
  match l with
  | '.' :: rest =>
      !(rest.takeWhile Char.isDigit).isEmpty && isExpPart (rest.dropWhile Char.isDigit)
  | _ =>
      let ds := l.takeWhile Char.isDigit
      let tail := l.dropWhile Char.isDigit
      !ds.isEmpty &&
        (match tail with
         | '.' :: r₂ => isExpPart (r₂.dropWhile Char.isDigit)
         | _ => isExpPart tail)

/-- Recognizer for an unsigned radix literal `0x…`, `0b…` or `0o…`. -/
def isRadixLit (l : List Char) : Bool :=
  match l with
  | '0' :: c :: rest =>
    if c == 'x' || c == 'X' then !rest.isEmpty && rest.all (fun ch => (hexVal ch).isSome)
    else if c == 'b' || c == 'B' then !rest.isEmpty && rest.all (fun ch => ch == '0' || ch == '1')
    else if c == 'o' || c == 'O' then !rest.isEmpty && rest.all (fun ch => '0' ≤ ch && ch ≤ '7')
    else false
  | _ => false

/-- Whether JS `Number(s)` yields a non-NaN value: the trimmed string is
empty (coerces to 0), a radix literal, or an optionally signed decimal
literal or `Infinity`. -/
def jsStringIsNumeric (s : String) : Bool :=
  let t := trimChars s.toList
  if t.isEmpty then true
  else if isRadixLit t then true
  else
    let core := match t with
      | '+' :: r => r
      | '-' :: r => r
      | _ => t
    core == "Infinity".toList || isUnsignedDecLit core

/-- JS `isNaN(s)` on a string argument: `Number(s)` coercion yields NaN. -/
def jsIsNaNStr (s : String) : Bool := !jsStringIsNumeric s

/-- JS `Array.prototype.slice(0, e)` where `e` may be `NaN` or negative:
`NaN` converts to 0; a negative end counts from the end of the array.
`List.take` clamps at the length exactly as `slice` does. -/
def jsSliceTo {α : Type} (l : List α) : JSNum → List α
  | .nan => []
  | .num e => if e < 0 then l.take (((l.length : Int) + e).toNat) else l.take e.toNat

/-- Whether `needle` occurs as a contiguous run inside `hay`. -/
def listHasInfixOf (needle : List Char) : List Char → Bool
  | [] => needle.isEmpty
  | c :: rest => needle.isPrefixOf (c :: rest) || listHasInfixOf needle rest

/-- JS `s.includes(pat)`. -/
def strIncludes (s pat : String) : Bool := listHasInfixOf pat.toList s.toList

/-- JS `a || d` for an optional string `a`: absent and empty strings are
falsy. -/
def jsOrStr (o : Option String) (d : String) : String :=
  match o with
  | none => d
  | some s => if s.isEmpty then d else s

/-- The output item shape produced by both fetchers. -/
structure MemeItem where
  postLink : String
  subreddit : String
  title : String
  url : String
  nsfw : Bool
  spoiler : Bool
  author : String
  ups : Int
deriving DecidableEq

/-- The response payload shape: a count and a list of items. -/
structure ResultSet where
  count : Nat
  memes : List MemeItem
deriving DecidableEq

/-- One cache slot: the stored payload and the `Date.now()` timestamp
recorded by `setCache` (milliseconds). -/
structure CacheEntry where
  data : ResultSet
  timestamp : Int
deriving DecidableEq

/-- The in-process `Map` used as a cache, modelled as an association list
whose `lookup` returns the value of the first matching key. -/
structure Cache where
  entries : List (String × CacheEntry)
deriving DecidableEq

/-- `CACHE_DURATION = 5 * 60 * 1000` milliseconds. -/
def CACHE_DURATION : Int := 5 * 60 * 1000

/-- `cache.get(key)`. -/
def cacheLookup (c : Cache) (k : String) : Option CacheEntry :=
  c.entries.lookup k

/-- `cache.delete(key)`. -/
def cacheDelete (c : Cache) (k : String) : Cache :=
  ⟨c.entries.filter (fun e => !(e.1 == k))⟩

/-- `getCachedKey(subreddit, count)`: the template literal
`subreddit ++ "_" ++ count`. -/
def getCachedKey (subreddit : String) (count : JSNum) : String :=
  subreddit ++ "_" ++ count.toStr

/-- `getFromCache(key)`: return the stored payload when the entry exists
and is fresh; otherwise delete the entry and report absent. Returns the
payload (or `none`) together with the possibly updated cache. -/
def getFromCache (c : Cache) (key : String) (now : Int) : Option ResultSet × Cache :=
  match cacheLookup c key with
  | some e =>
      if now - e.timestamp < CACHE_DURATION then (some e.data, c)
      else (none, cacheDelete c key)
  | none => (none, cacheDelete c key)

/-- `setCache(key, data)`: `Map.set` replaces any existing entry for the
key; the association list keeps the new pair in front and drops the old. -/
def setCache (c : Cache) (key : String) (d : ResultSet) (now : Int) : Cache :=
  ⟨(key, ⟨d, now⟩) :: c.entries.filter (fun e => !(e.1 == key))⟩

/-- One post record from the Reddit listing (the `data` field of a child).
`title` and `url` use the empty string for an absent field, which has the
same JS truthiness; `over_18`, `spoiler` and `ups` may be absent. -/
structure RedditPost where
  id : String
  subreddit : String
  title : String
  url : String
  stickied : Bool
  over_18 : Option Bool
  spoiler : Option Bool
  author : String
  ups : Option Int
deriving DecidableEq

/-- The `data` object of the Reddit envelope; `children` may be missing. -/
structure RedditListing where
  children : Option (List RedditPost)
deriving DecidableEq

/-- The parsed Reddit response body; the outer `data` field may be
missing. Each child of the real JSON is a wrapper whose only used field is
`data`, so children are modelled directly as posts. -/
structure RedditBody where
  data : Option RedditListing
deriving DecidableEq

/-- One item of the fallback aggregator response. Optional fields model
possibly absent JSON fields. -/
structure FallbackMeme where
  postLink : String
  subreddit : String
  title : String
  url : String
  nsfw : Option Bool
  spoiler : Option Bool
  author : Option String
  ups : Option Int
deriving DecidableEq

/-- The parsed fallback response body. `none` models an absent (falsy)
`memes` field; `some []` models a present but empty array, which is truthy
in JS. -/
structure FallbackBody where
  memes : Option (List FallbackMeme)
deriving DecidableEq

/-- Outcome of one outbound HTTP call: a parsed successful body, a
non-ok HTTP response (status and error text), or a transport-level
failure whose message is thrown as-is. -/
inductive FetchOutcome (α : Type) where
  | ok : α → FetchOutcome α
  | httpError : Int → String → FetchOutcome α
  | networkError : String → FetchOutcome α
deriving DecidableEq

/-- The oracle for the two external services: what each call would return
during this request. -/
structure World where
  reddit : FetchOutcome RedditBody
  fallback : FetchOutcome FallbackBody
deriving DecidableEq

/-- Record of an outbound call actually issued, with the request
parameters interpolated into its URL. -/
inductive OutboundCall where
  | reddit (subreddit : String) (limit : JSNum)
  | fallbackApi (subreddit : String) (count : JSNum)
deriving DecidableEq

deriving instance DecidableEq for Except

/-- Result of running a fetcher: the returned payload or thrown message,
the cache afterwards, and the outbound calls issued. -/
structure FetchEff where
  result : Except String ResultSet
  cache : Cache
  calls : List OutboundCall
deriving DecidableEq

/-- The `limit` query parameter of the Reddit request:
`Math.min(count * 2, 100)`. -/
def redditLimit (count : JSNum) : JSNum := (count.mulInt 2).minInt 100

/-- The filter predicate applied to each candidate post, in source order:
a truthy `url` containing one of the three media hosts, not stickied, not
`over_18`, and a truthy `title`. -/
def redditFilter (p : RedditPost) : Bool :=
  !p.url.isEmpty &&
  (strIncludes p.url "i.redd.it" || strIncludes p.url "v.redd.it" ||
    strIncludes p.url "preview.redd.it") &&
  !p.stickied && !(p.over_18.getD false) && !p.title.isEmpty

/-- The map from a kept Reddit post to the output item shape:
`over_18 || false`, `spoiler || false` and `ups || 0` are `getD` since the
present-and-falsy and absent cases coincide. -/
def toMemeItem (p : RedditPost) : MemeItem :=
  { postLink := "https://redd.it/" ++ p.id
    subreddit := p.subreddit
    title := p.title
    url := p.url
    nsfw := p.over_18.getD false
    spoiler := p.spoiler.getD false
    author := p.author
    ups := p.ups.getD 0 }

/-- The message thrown on a 403 from the primary source. -/
def redditBlockedMsg : String :=
  "Reddit is temporarily blocking requests. This is a known issue with Reddit\x27s API restrictions. Please try again later or consider using alternative meme sources."

/-- `fetchFromReddit(subreddit, count, cacheKey)`: issue the primary call,
throw on a non-ok status (with a dedicated message for 403) or a missing
envelope, otherwise filter, truncate with `slice(0, count)`, map to the
output shape, cache and return. -/
def fetchFromReddit (w : World) (subreddit : String) (count : JSNum)
    (cacheKey : String) (c : Cache) (now : Int) : FetchEff :=
  let call := OutboundCall.reddit subreddit (redditLimit count)
  match w.reddit with
  | .httpError status text =>
      if status == 403 then ⟨.error redditBlockedMsg, c, [call]⟩
      else ⟨.error ("Reddit API error: " ++ toString status ++ " - " ++ text), c, [call]⟩
  | .networkError m => ⟨.error m, c, [call]⟩
  | .ok body =>
      match body.data with
      | none => ⟨.error "Invalid Reddit response", c, [call]⟩
      | some listing =>
        match listing.children with
        | none => ⟨.error "Invalid Reddit response", c, [call]⟩
        | some children =>
          let memes := (jsSliceTo (children.filter redditFilter) count).map toMemeItem
          let result : ResultSet := ⟨memes.length, memes⟩
          ⟨.ok result, setCache c cacheKey result now, [call]⟩

/-- The map from a fallback aggregator item to the output shape;
`author || 'unknown'` treats an absent or empty author as falsy. -/
def mapFallbackMeme (m : FallbackMeme) : MemeItem :=
  { postLink := m.postLink
    subreddit := m.subreddit
    title := m.title
    url := m.url
    nsfw := m.nsfw.getD false
    spoiler := m.spoiler.getD false
    author := jsOrStr m.author "unknown"
    ups := m.ups.getD 0 }

/-- The placeholder item synthesized when the fallback body has no
truthy `memes` field. -/
def placeholderMeme (subreddit : String) : MemeItem :=
  { postLink := "#"
    subreddit := subreddit
    title := "Meme temporarily unavailable"
    url := "https://i.imgflip.com/3i7p.jpg"
    nsfw := false
    spoiler := false
    author := "fallback"
    ups := 0 }

/-- `fetchFallbackMemes(subreddit, count, cacheKey)`: issue the fallback
call, throw the aggregate message on a non-ok status, otherwise map the
`memes` array (or synthesize the placeholder when the field is falsy),
set `count` to the full length, truncate `memes` with `slice(0, count)`,
cache and return. -/
def fetchFallbackMemes (w : World) (subreddit : String) (count : JSNum)
    (cacheKey : String) (c : Cache) (now : Int) : FetchEff :=
  let call := OutboundCall.fallbackApi subreddit count
  match w.fallback with
  | .httpError _ _ => ⟨.error "Both Reddit and fallback meme APIs are unavailable", c, [call]⟩
  | .networkError m => ⟨.error m, c, [call]⟩
  | .ok body =>
      let memes := match body.memes with
        | some ms => ms.map mapFallbackMeme
        | none => [placeholderMeme subreddit]
      let result : ResultSet := ⟨memes.length, jsSliceTo memes count⟩
      ⟨.ok result, setCache c cacheKey result now, [call]⟩

/-- The count validation check shared by `fetchMemes` and the handler:
`count < 1 || count > 100` (false for `NaN`). -/
def countOutOfRange (count : JSNum) : Bool :=
  count.ltNum 1 || count.gtNum 100

/-- `fetchMemes(subreddit, count)`: validate the count, consult the cache,
then try the primary fetcher and on failure the fallback fetcher; a
fallback failure propagates (the outer catch only logs and rethrows). -/
def fetchMemes (w : World) (subreddit : String) (count : JSNum)
    (c : Cache) (now : Int) : FetchEff :=
  if countOutOfRange count then
    ⟨.error "Count must be between 1 and 100", c, []⟩
  else
    let cacheKey := getCachedKey subreddit count
    let g := getFromCache c cacheKey now
    match g.1 with
    | some d => ⟨.ok d, g.2, []⟩
    | none =>
      let r := fetchFromReddit w subreddit count cacheKey g.2 now
      match r.result with
      | .ok d => ⟨.ok d, r.cache, r.calls⟩
      | .error _ =>
        let f := fetchFallbackMemes w subreddit count cacheKey r.cache now
        ⟨f.result, f.cache, r.calls ++ f.calls⟩

/-- The regex test `^[a-zA-Z0-9_]+$`. -/
def validSubreddit (s : String) : Bool :=
  !s.isEmpty && s.toList.all (fun c => c.isAlphanum || c == '_')

/-- The positional path parsing of the handler: defaults `(memes, 1)`,
then the branches for exactly one segment (`isNaN` decides subreddit
versus count) and exactly two segments; three or more segments hit no
branch and keep the defaults. -/
def parsePath (pathParts : List String) : String × JSNum :=
  match pathParts with
  | [] => ("memes", .num 1)
  | [param] =>
      if jsIsNaNStr param then (param, .num 1)
      else ("memes", jsParseInt param)
  | [s, cnt] => (s, jsParseInt cnt)
  | _ => ("memes", .num 1)

/-- The JSON body of a handler response, one constructor per response
shape appearing in the source. -/
inductive RespBody where
  | empty
  | errObj (error : String)
  | notFound (error : String) (count : Nat) (memes : List MemeItem)
  | success (r : ResultSet)
  | serverError (error : String) (message : String)
deriving DecidableEq

/-- Result of one handler invocation: HTTP status, body, cache afterwards
and the outbound calls issued. -/
structure HandlerResult where
  status : Nat
  body : RespBody
  cache : Cache
  calls : List OutboundCall
deriving DecidableEq

/-- The request handler: preflight and method checks, path parsing, count
and subreddit validation, the fetch pipeline, then the 404 / 200 / 500
mapping. -/
def handler (w : World) (method : String) (pathParts : List String)
    (c : Cache) (now : Int) : HandlerResult :=
  if method == "OPTIONS" then ⟨200, .empty, c, []⟩
  else if !(method == "GET") then ⟨405, .errObj "Method not allowed", c, []⟩
  else
    let sc := parsePath pathParts
    let subreddit := sc.1
    let count := sc.2
    if countOutOfRange count then
      ⟨400, .errObj "Count must be between 1 and 100", c, []⟩
    else if !(validSubreddit subreddit) then
      ⟨400, .errObj "Invalid subreddit name", c, []⟩
    else
      let f := fetchMemes w subreddit count c now
      match f.result with
      | .error e => ⟨500, .serverError "Internal server error" e, f.cache, f.calls⟩
      | .ok result =>
        if result.memes.length == 0 then
          ⟨404, .notFound "No memes found for this subreddit" 0 [], f.cache, f.calls⟩
        else ⟨200, .success result, f.cache, f.calls⟩

/-! ### Spec-side definitions

These follow the wording of the specification (not the source) and are
compared with the embedded code by refinement theorems. -/

/-- Spec-side filter predicate: carries a direct-media URL containing one
of the three recognized media-host patterns, is not sticky, is not
flagged adult, and has a non-empty title. -/
def specFilter (p : RedditPost) : Bool :=
  (strIncludes p.url "i.redd.it" || strIncludes p.url "v.redd.it" ||
    strIncludes p.url "preview.redd.it") &&
  !p.stickied && !(p.over_18.getD false) && !p.title.isEmpty

/-- Spec-side mapping of a kept post to the output item shape, with
`nsfw` and `spoiler` defaulting to false and `ups` defaulting to 0 when
absent. -/
def specMap (p : RedditPost) : MemeItem :=
  { postLink := "https://redd.it/" ++ p.id
    subreddit := p.subreddit
    title := p.title
    url := p.url
    nsfw := match p.over_18 with
      | none => false
      | some b => b
    spoiler := match p.spoiler with
      | none => false
      | some b => b
    author := p.author
    ups := match p.ups with
      | none => 0
      | some u => u }

/-- Spec-side primary result: the first `count` matches of the filter, in
upstream order, mapped to the output shape, with `count` set to the
number of returned items. -/
def specPrimary (posts : List RedditPost) (count : Int) : ResultSet :=
  let ms := ((posts.filter specFilter).take count.toNat).map specMap
  ⟨ms.length, ms⟩

/-! ### Derived descriptions of the embedded code, used in statements -/

/-- The result set computed by the fallback fetcher from a successfully
parsed body. -/
def fallbackResultSet (body : FallbackBody) (subreddit : String) (count : JSNum) : ResultSet :=
  let memes := match body.memes with
    | some ms => ms.map mapFallbackMeme
    | none => [placeholderMeme subreddit]
  ⟨memes.length, jsSliceTo memes count⟩

/-- Whether an outcome of the primary call makes `fetchFromReddit` throw:
a non-ok status, a transport failure, or a missing envelope. -/
def primaryFails : FetchOutcome RedditBody → Bool
  | .ok body =>
      match body.data with
      | none => true
      | some listing => listing.children.isNone
  | .httpError _ _ => true
  | .networkError _ => true

/-- Whether an outcome of the fallback call makes `fetchFallbackMemes`
throw. -/
def fallbackFails : FetchOutcome FallbackBody → Bool
  | .ok _ => false
  | .httpError _ _ => true
  | .networkError _ => true

/-- The message thrown by `fetchFallbackMemes` on a failing outcome. -/
def fallbackErrMsg : FetchOutcome FallbackBody → String
  | .ok _ => ""
  | .httpError _ _ => "Both Reddit and fallback meme APIs are unavailable"
  | .networkError m => m

/-! ### Concrete sample inputs used by witnesses and counterexamples -/

/-- A post that passes the filter. -/
def samplePost : RedditPost :=
  ⟨"abc1", "memes", "A meme", "https://i.redd.it/abc1.jpg", false, some false,
    some false, "someone", some 10⟩

/-- A stickied post, rejected by the filter. -/
def stickyPost : RedditPost :=
  ⟨"abc2", "memes", "Pinned", "https://i.redd.it/abc2.jpg", true, some false,
    some false, "mod", some 3⟩

/-- A concrete world whose primary call succeeds with one good post and
whose fallback call would fail. -/
def goodWorld : World :=
  ⟨.ok ⟨some ⟨some [samplePost]⟩⟩, .httpError 500 "down"⟩

/-- A concrete world in which both calls fail. -/
def bothFailWorld : World := ⟨.httpError 500 "boom", .httpError 500 "boom"⟩

/-- A concrete world in which the primary call is blocked with a 403 and
the fallback responds successfully with a present but empty memes
array. -/
def emptyFallbackWorld : World := ⟨.httpError 403 "blocked", .ok ⟨some []⟩⟩

/-- A concrete world in which the primary call is blocked with a 403 and
the fallback responds successfully with no memes field at all. -/
def placeholderWorld : World := ⟨.httpError 403 "blocked", .ok ⟨none⟩⟩

/-- A concrete world whose primary call succeeds with only a stickied
post, so zero candidates pass the filter. -/
def emptyPrimaryWorld : World :=
  ⟨.ok ⟨some ⟨some [stickyPost]⟩⟩, .httpError 500 "down"⟩

/-! ### Helper lemmas about the cache -/

theorem cacheLookup_setCache_self (c : Cache) (k : String) (d : ResultSet) (now : Int) :
    cacheLookup (setCache c k d now) k = some ⟨d, now⟩ := by
  simp [cacheLookup, setCache, List.lookup]

theorem countOutOfRange_num_false {k : Int} (h1 : 1 ≤ k) (h2 : k ≤ 100) :
    countOutOfRange (.num k) = false := by
  simp only [countOutOfRange, JSNum.ltNum, JSNum.gtNum, Bool.or_eq_false_iff,
    decide_eq_false_iff_not]
  omega

theorem jsSliceTo_nonneg {α : Type} (l : List α) {e : Int} (h : 0 ≤ e) :
    jsSliceTo l (.num e) = l.take e.toNat := by
  simp only [jsSliceTo]
  rw [if_neg (by omega)]

/-! ### Helper lemmas about the fetchers -/

theorem fetchFromReddit_calls (w : World) (s : String) (cnt : JSNum) (key : String)
    (c : Cache) (now : Int) :
    (fetchFromReddit w s cnt key c now).calls = [.reddit s (redditLimit cnt)] := by
  cases hw : w.reddit with
  | ok body =>
      cases hd : body.data with
      | none => simp [fetchFromReddit, hw, hd]
      | some listing =>
          cases hc : listing.children <;> simp [fetchFromReddit, hw, hd, hc]
  | httpError st t =>
      simp only [fetchFromReddit, hw]
      split <;> rfl
  | networkError m => simp [fetchFromReddit, hw]

theorem fetchFallbackMemes_calls (w : World) (s : String) (cnt : JSNum) (key : String)
    (c : Cache) (now : Int) :
    (fetchFallbackMemes w s cnt key c now).calls = [.fallbackApi s cnt] := by
  cases hw : w.fallback <;> simp [fetchFallbackMemes, hw]

theorem fetchFromReddit_store {w : World} {s : String} {cnt : JSNum} {key : String}
    {c : Cache} {now : Int} {d : ResultSet}
    (h : (fetchFromReddit w s cnt key c now).result = .ok d) :
    (fetchFromReddit w s cnt key c now).cache = setCache c key d now := by
  cases hw : w.reddit with
  | ok body =>
      cases hd : body.data with
      | none => simp [fetchFromReddit, hw, hd] at h
      | some listing =>
          cases hc : listing.children with
          | none => simp [fetchFromReddit, hw, hd, hc] at h
          | some ch =>
              simp only [fetchFromReddit, hw, hd, hc] at h ⊢
              rw [show d = ⟨(jsSliceTo (ch.filter redditFilter) cnt).map toMemeItem |>.length,
                    (jsSliceTo (ch.filter redditFilter) cnt).map toMemeItem⟩ by
                cases h; rfl]
  | httpError st t =>
      simp only [fetchFromReddit, hw] at h
      split at h <;> simp at h
  | networkError m => simp [fetchFromReddit, hw] at h

theorem fetchFallbackMemes_ok {w : World} {body : FallbackBody}
    (s : String) (cnt : JSNum) (key : String) (c : Cache) (now : Int)
    (h : w.fallback = .ok body) :
    fetchFallbackMemes w s cnt key c now =
      ⟨.ok (fallbackResultSet body s cnt),
       setCache c key (fallbackResultSet body s cnt) now,
       [.fallbackApi s cnt]⟩ := by
  simp only [fetchFallbackMemes, h, fallbackResultSet]

theorem fetchFallbackMemes_err {w : World}
    (s : String) (cnt : JSNum) (key : String) (c : Cache) (now : Int)
    (h : fallbackFails w.fallback = true) :
    fetchFallbackMemes w s cnt key c now =
      ⟨.error (fallbackErrMsg w.fallback), c, [.fallbackApi s cnt]⟩ := by
  cases hw : w.fallback with
  | ok body => rw [hw] at h; simp [fallbackFails] at h
  | httpError st t => simp [fetchFallbackMemes, hw, fallbackErrMsg]
  | networkError m => simp [fetchFallbackMemes, hw, fallbackErrMsg]

theorem fetchFromReddit_err {w : World}
    (s : String) (cnt : JSNum) (key : String) (c : Cache) (now : Int)
    (h : primaryFails w.reddit = true) :
    ∃ e, fetchFromReddit w s cnt key c now =
      ⟨.error e, c, [.reddit s (redditLimit cnt)]⟩ := by
  cases hw : w.reddit with
  | ok body =>
      cases hd : body.data with
      | none => exact ⟨"Invalid Reddit response", by simp [fetchFromReddit, hw, hd]⟩
      | some listing =>
          cases hc : listing.children with
          | none => exact ⟨"Invalid Reddit response", by simp [fetchFromReddit, hw, hd, hc]⟩
          | some ch =>
              rw [hw] at h
              simp [primaryFails, hd, hc] at h
  | httpError st t =>
      by_cases h403 : st = 403
      · exact ⟨redditBlockedMsg, by simp [fetchFromReddit, hw, h403]⟩
      · exact ⟨"Reddit API error: " ++ toString st ++ " - " ++ t,
          by simp [fetchFromReddit, hw, h403]⟩
  | networkError m => exact ⟨m, by simp [fetchFromReddit, hw]⟩

/-! ### Helper lemmas about `fetchMemes` -/

theorem fetchMemes_hit {c : Cache} {s : String} {cnt : JSNum} {p : ResultSet} {ts : Int}
    (w : World) (now : Int)
    (hfound : cacheLookup c (getCachedKey s cnt) = some ⟨p, ts⟩)
    (hfresh : now - ts < CACHE_DURATION)
    (hc : countOutOfRange cnt = false) :
    fetchMemes w s cnt c now = ⟨.ok p, c, []⟩ := by
  simp only [fetchMemes, hc, Bool.false_eq_true, if_false, getFromCache, hfound,
    if_pos hfresh]

theorem fetchMemes_miss_reddit_ok {w : World} {s : String} {cnt : JSNum} {c : Cache}
    {now : Int} {d : ResultSet}
    (hmiss : cacheLookup c (getCachedKey s cnt) = none)
    (hc : countOutOfRange cnt = false)
    (hr : (fetchFromReddit w s cnt (getCachedKey s cnt)
            (cacheDelete c (getCachedKey s cnt)) now).result = .ok d) :
    fetchMemes w s cnt c now =
      ⟨.ok d, setCache (cacheDelete c (getCachedKey s cnt)) (getCachedKey s cnt) d now,
        [.reddit s (redditLimit cnt)]⟩ := by
  simp only [fetchMemes, hc, Bool.false_eq_true, if_false, getFromCache, hmiss]
  rw [show (fetchFromReddit w s cnt (getCachedKey s cnt)
        (cacheDelete c (getCachedKey s cnt)) now) =
      ⟨.ok d, setCache (cacheDelete c (getCachedKey s cnt)) (getCachedKey s cnt) d now,
        [.reddit s (redditLimit cnt)]⟩ by
    have h₁ := fetchFromReddit_store hr
    have h₂ := fetchFromReddit_calls w s cnt (getCachedKey s cnt)
      (cacheDelete c (getCachedKey s cnt)) now
    cases hres : fetchFromReddit w s cnt (getCachedKey s cnt)
      (cacheDelete c (getCachedKey s cnt)) now
    rw [hres] at hr h₁ h₂
    simp_all]


theorem fetchFromReddit_err_cache {w : World} {s : String} {cnt : JSNum} {key : String}
    {c : Cache} {now : Int} {e : String}
    (h : (fetchFromReddit w s cnt key c now).result = .error e) :
    (fetchFromReddit w s cnt key c now).cache = c := by
  cases hw : w.reddit with
  | ok body =>
      cases hd : body.data with
      | none => simp [fetchFromReddit, hw, hd]
      | some listing =>
          cases hc : listing.children with
          | none => simp [fetchFromReddit, hw, hd, hc]
          | some ch => simp [fetchFromReddit, hw, hd, hc] at h
  | httpError st t =>
      simp only [fetchFromReddit, hw]
      split <;> rfl
  | networkError m => simp [fetchFromReddit, hw]

theorem fetchMemes_miss_reddit_err {w : World} {s : String} {cnt : JSNum} {c : Cache}
    {now : Int} {e : String}
    (hmiss : cacheLookup c (getCachedKey s cnt) = none)
    (hc : countOutOfRange cnt = false)
    (hr : (fetchFromReddit w s cnt (getCachedKey s cnt)
            (cacheDelete c (getCachedKey s cnt)) now).result = .error e) :
    fetchMemes w s cnt c now =
      ⟨(fetchFallbackMemes w s cnt (getCachedKey s cnt)
          (cacheDelete c (getCachedKey s cnt)) now).result,
       (fetchFallbackMemes w s cnt (getCachedKey s cnt)
          (cacheDelete c (getCachedKey s cnt)) now).cache,
       [.reddit s (redditLimit cnt), .fallbackApi s cnt]⟩ := by
  have hcc := fetchFromReddit_err_cache hr
  have hcalls := fetchFromReddit_calls w s cnt (getCachedKey s cnt)
      (cacheDelete c (getCachedKey s cnt)) now
  have hfcalls := fetchFallbackMemes_calls w s cnt (getCachedKey s cnt)
      (cacheDelete c (getCachedKey s cnt)) now
  simp only [fetchMemes, hc, Bool.false_eq_true, if_false, getFromCache, hmiss]
  rw [hr, hcc, hcalls, hfcalls]
  rfl

theorem fetchFallbackMemes_store {w : World} {s : String} {cnt : JSNum} {key : String}
    {c : Cache} {now : Int} {d : ResultSet}
    (h : (fetchFallbackMemes w s cnt key c now).result = .ok d) :
    (fetchFallbackMemes w s cnt key c now).cache = setCache c key d now := by
  cases hw : w.fallback with
  | ok body =>
      rw [fetchFallbackMemes_ok s cnt key c now hw] at h ⊢
      simp at h
      rw [h]
  | httpError st t => simp [fetchFallbackMemes, hw] at h
  | networkError m => simp [fetchFallbackMemes, hw] at h

theorem getFromCache_fresh {c : Cache} {key : String} {now : Int} {e : CacheEntry}
    (hfound : cacheLookup c key = some e) (hfresh : now - e.timestamp < CACHE_DURATION) :
    getFromCache c key now = (some e.data, c) := by
  simp [getFromCache, hfound, hfresh]

theorem getFromCache_stale {c : Cache} {key : String} {now : Int} {e : CacheEntry}
    (hfound : cacheLookup c key = some e) (hstale : CACHE_DURATION ≤ now - e.timestamp) :
    getFromCache c key now = (none, cacheDelete c key) := by
  simp only [getFromCache, hfound]
  rw [if_neg (by omega)]

theorem getFromCache_none {c : Cache} {key : String} (now : Int)
    (hnone : cacheLookup c key = none) :
    getFromCache c key now = (none, cacheDelete c key) := by
  simp [getFromCache, hnone]

theorem fetchMemes_store_of_miss {w : World} {s : String} {cnt : JSNum} {c : Cache}
    {now : Int} {p : ResultSet}
    (hmiss : cacheLookup c (getCachedKey s cnt) = none)
    (hc : countOutOfRange cnt = false)
    (hok : (fetchMemes w s cnt c now).result = .ok p) :
    cacheLookup (fetchMemes w s cnt c now).cache (getCachedKey s cnt) = some ⟨p, now⟩ ∧
    (fetchMemes w s cnt c now).calls ≠ [] := by
  cases hr : (fetchFromReddit w s cnt (getCachedKey s cnt)
      (cacheDelete c (getCachedKey s cnt)) now).result with
  | ok d =>
      have heq := fetchMemes_miss_reddit_ok hmiss hc hr
      rw [heq] at hok ⊢
      simp at hok
      rw [hok] at *
      exact ⟨cacheLookup_setCache_self _ _ _ _, by simp⟩
  | error e =>
      have heq := fetchMemes_miss_reddit_err hmiss hc hr
      rw [heq] at hok ⊢
      simp only at hok ⊢
      refine ⟨?_, by simp⟩
      rw [fetchFallbackMemes_store hok]
      exact cacheLookup_setCache_self _ _ _ _

theorem fetchMemes_calls_of_miss {w : World} {s : String} {cnt : JSNum} {c : Cache}
    {now : Int}
    (hmiss : (getFromCache c (getCachedKey s cnt) now).1 = none)
    (hc : countOutOfRange cnt = false) :
    (fetchMemes w s cnt c now).calls ≠ [] := by
  simp only [fetchMemes, hc, Bool.false_eq_true, if_false]
  rw [hmiss]
  cases hr : (fetchFromReddit w s cnt (getCachedKey s cnt)
      (getFromCache c (getCachedKey s cnt) now).2 now).result with
  | ok d =>
      simp only [hr]
      rw [fetchFromReddit_calls]
      simp
  | error e =>
      simp only [hr]
      rw [fetchFromReddit_calls]
      simp

theorem handler_valid {parts : List String} {sub : String} {cnt : JSNum}
    (w : World) (c : Cache) (now : Int)
    (hparse : parsePath parts = (sub, cnt))
    (hcnt : countOutOfRange cnt = false)
    (hsub : validSubreddit sub = true) :
    handler w "GET" parts c now =
      match (fetchMemes w sub cnt c now).result with
      | .error e => ⟨500, .serverError "Internal server error" e,
          (fetchMemes w sub cnt c now).cache, (fetchMemes w sub cnt c now).calls⟩
      | .ok result =>
        if result.memes.length == 0 then
          ⟨404, .notFound "No memes found for this subreddit" 0 [],
            (fetchMemes w sub cnt c now).cache, (fetchMemes w sub cnt c now).calls⟩
        else ⟨200, .success result,
            (fetchMemes w sub cnt c now).cache, (fetchMemes w sub cnt c now).calls⟩ := by
  have h₁ : (("GET" : String) == "OPTIONS") = false := by decide
  have h₂ : (("GET" : String) == "GET") = true := by decide
  simp only [handler, h₁, h₂, Bool.not_true, Bool.false_eq_true, if_false, hparse,
    hcnt, hsub]

theorem handler_200 {w : World} {parts : List String} {sub : String} {cnt : JSNum}
    {c : Cache} {now : Int}
    (hparse : parsePath parts = (sub, cnt))
    (hcnt : countOutOfRange cnt = false)
    (hsub : validSubreddit sub = true)
    (h200 : (handler w "GET" parts c now).status = 200) :
    ∃ p, (fetchMemes w sub cnt c now).result = .ok p ∧ p.memes.length ≠ 0 ∧
      handler w "GET" parts c now =
        ⟨200, .success p, (fetchMemes w sub cnt c now).cache,
          (fetchMemes w sub cnt c now).calls⟩ := by
  rw [handler_valid w c now hparse hcnt hsub] at h200 ⊢
  cases hres : (fetchMemes w sub cnt c now).result with
  | error e => rw [hres] at h200; simp at h200
  | ok p =>
      rw [hres] at h200
      by_cases hlen : p.memes.length = 0
      · simp [hlen] at h200
      · refine ⟨p, rfl, hlen, ?_⟩
        simp [hlen]

theorem redditFilter_eq_specFilter : redditFilter = specFilter := by
  funext p
  cases hu : p.url.isEmpty
  · simp [redditFilter, specFilter, hu]
  · have hempty : p.url = "" := (String.isEmpty_iff p.url).mp hu
    have h1 : strIncludes "" "i.redd.it" = false := by decide
    have h2 : strIncludes "" "v.redd.it" = false := by decide
    have h3 : strIncludes "" "preview.redd.it" = false := by decide
    simp [redditFilter, specFilter, hu, hempty, h1, h2, h3]

theorem toMemeItem_eq_specMap : toMemeItem = specMap := by
  funext p
  cases p with
  | mk id sub title url st o18 sp au ups =>
      cases o18 <;> cases sp <;> cases ups <;> rfl

theorem take_singleton_of_pos {α : Type} (x : α) {n : Nat} (h : 1 ≤ n) :
    [x].take n = [x] := by
  cases n with
  | zero => omega
  | succ m => simp

theorem jsParseInt_toString_small :
    ∀ i : Fin 100, jsParseInt (toString ((i : Nat) + 1)) = JSNum.num ((i : Nat) + 1) := by
  decide

/-! ### Claim theorems -/

/-- C8: path parsing follows the stated precedence: zero segments yields
(memes, 1); one segment yields (memes, parsed count) when the segment is
numeric and (segment, 1) otherwise; two segments yields (first segment,
parsed second segment); and for every count in [1,100] and
alphanumeric/underscore subreddit, parsing the two-segment path with the
decimal count yields exactly that pair. -/
theorem c8_parse_precedence :
    parsePath [] = ("memes", JSNum.num 1) ∧
    (∀ p, jsIsNaNStr p = true → parsePath [p] = (p, JSNum.num 1)) ∧
    (∀ p, jsIsNaNStr p = false → parsePath [p] = ("memes", jsParseInt p)) ∧
    (∀ a b, parsePath [a, b] = (a, jsParseInt b)) ∧
    (∀ (sub : String) (k : Nat), 1 ≤ k → k ≤ 100 → validSubreddit sub = true →
      parsePath [sub, toString k] = (sub, JSNum.num k)) := by
  refine ⟨rfl, ?_, ?_, ?_, ?_⟩
  · intro p hp; simp [parsePath, hp]
  · intro p hp; simp [parsePath, hp]
  · intro a b; rfl
  · intro sub k h1 h2 hs
    have h := jsParseInt_toString_small ⟨k - 1, by omega⟩
    simp only [Fin.val_mk] at h
    have hk : k - 1 + 1 = k := by omega
    have hcast : ((k - 1 : Nat) : Int) + 1 = ((k : Nat) : Int) := by omega
    rw [hk, hcast] at h
    simp [parsePath, h]

/-- Witness for C8 at a concrete subreddit and count. -/
theorem c8_witness :
    parsePath ["pics", toString (5 : Nat)] = ("pics", JSNum.num 5) :=
  c8_parse_precedence.2.2.2.2 "pics" 5 (by omega) (by omega) (by decide)

/-- C10: a GET request whose path has three or more segments falls
through every parsing branch, keeping the defaults (memes, 1), and is
handled exactly as a zero-segment request. -/
theorem c10_three_plus_segments :
    ∀ (parts : List String) (w : World) (c : Cache) (now : Int),
      3 ≤ parts.length →
      parsePath parts = ("memes", JSNum.num 1) ∧
      handler w "GET" parts c now = handler w "GET" [] c now := by
  intro parts w c now hlen
  rcases parts with _ | ⟨a, _ | ⟨b, _ | ⟨d, t⟩⟩⟩
  · simp at hlen
  · simp at hlen
  · simp at hlen
  · exact ⟨rfl, rfl⟩

/-- Witness for C10 at a concrete three-segment path. -/
theorem c10_witness :
    parsePath ["a", "b", "c"] = ("memes", JSNum.num 1) ∧
    handler goodWorld "GET" ["a", "b", "c"] ⟨[]⟩ 0 =
      handler goodWorld "GET" [] ⟨[]⟩ 0 :=
  c10_three_plus_segments ["a", "b", "c"] goodWorld ⟨[]⟩ 0 (by simp)

/-- C2 counterexample: with the two-segment path (memes, abc) the parsed
count is NaN, which is not in [1,100], yet the handler does not return
400 and both outbound calls are issued: the claim fails for counts parsed
from non-numeric path segments. -/
theorem c2_counterexample :
    (parsePath ["memes", "abc"]).2 = JSNum.nan ∧
    (handler bothFailWorld "GET" ["memes", "abc"] ⟨[]⟩ 0).status = 500 ∧
    (handler bothFailWorld "GET" ["memes", "abc"] ⟨[]⟩ 0).calls =
      [.reddit "memes" JSNum.nan, .fallbackApi "memes" JSNum.nan] :=
  ⟨rfl, rfl, rfl⟩

/-- C2 amended: for every request whose parsed count is a numeric value
outside [1,100] the handler returns 400 with no outbound call; but a
count parsed from a non-numeric segment is NaN, which passes the range
validation (every comparison with NaN is false) and reaches the fetch
pipeline, issuing an outbound call. -/
theorem c2_amended :
    (∀ (w : World) (parts : List String) (sub : String) (i : Int) (c : Cache) (now : Int),
        parsePath parts = (sub, JSNum.num i) → (i < 1 ∨ 100 < i) →
        handler w "GET" parts c now =
          ⟨400, .errObj "Count must be between 1 and 100", c, []⟩) ∧
    (∀ (w : World) (parts : List String) (sub : String) (c : Cache) (now : Int),
        parsePath parts = (sub, JSNum.nan) → validSubreddit sub = true →
        cacheLookup c (getCachedKey sub JSNum.nan) = none →
        (handler w "GET" parts c now).status ≠ 400 ∧
        (handler w "GET" parts c now).calls ≠ []) := by
  constructor
  · intro w parts sub i c now hparse hrange
    have hc : countOutOfRange (JSNum.num i) = true := by
      simp only [countOutOfRange, JSNum.ltNum, JSNum.gtNum, Bool.or_eq_true,
        decide_eq_true_eq]
      omega
    have h₁ : (("GET" : String) == "OPTIONS") = false := by decide
    have h₂ : (("GET" : String) == "GET") = true := by decide
    simp [handler, h₁, h₂, hparse, hc]
  · intro w parts sub c now hparse hsub hmiss
    have hc : countOutOfRange JSNum.nan = false := rfl
    have hcalls : (fetchMemes w sub JSNum.nan c now).calls ≠ [] :=
      fetchMemes_calls_of_miss (by rw [getFromCache_none now hmiss]) hc
    rw [handler_valid w c now hparse hc hsub]
    cases hres : (fetchMemes w sub JSNum.nan c now).result with
    | error e => exact ⟨by simp, hcalls⟩
    | ok r =>
        by_cases hlen : r.memes.length = 0
        · exact ⟨by simp [hlen], by simpa [hlen] using hcalls⟩
        · exact ⟨by simp [hlen], by simpa [hlen] using hcalls⟩

/-- Witness for C2 amended at the concrete count 0. -/
theorem c2_witness :
    handler bothFailWorld "GET" ["0"] ⟨[]⟩ 0 =
      ⟨400, .errObj "Count must be between 1 and 100", ⟨[]⟩, []⟩ :=
  c2_amended.1 bothFailWorld ["0"] "memes" 0 ⟨[]⟩ 0 rfl (Or.inl (by omega))

/-- C6: when the primary source responds with success but zero candidates
pass the filter, the handler returns 404 with the not-found body carrying
count 0 and an empty memes list, and only the primary call was issued:
the fallback fetcher is not invoked. The 404 is distinct from the 500
pipeline failure by construction. -/
theorem c6_empty_results_404 :
    ∀ (w : World) (parts : List String) (sub : String) (k : Int) (c : Cache) (now : Int)
      (posts : List RedditPost),
      parsePath parts = (sub, JSNum.num k) → 1 ≤ k → k ≤ 100 →
      validSubreddit sub = true →
      cacheLookup c (getCachedKey sub (JSNum.num k)) = none →
      w.reddit = .ok ⟨some ⟨some posts⟩⟩ →
      posts.filter redditFilter = [] →
      (handler w "GET" parts c now).status = 404 ∧
      (handler w "GET" parts c now).body =
        .notFound "No memes found for this subreddit" 0 [] ∧
      (handler w "GET" parts c now).calls = [.reddit sub (redditLimit (JSNum.num k))] := by
  intro w parts sub k c now posts hparse h1 h2 hsub hmiss hw hfilter
  have hc := countOutOfRange_num_false h1 h2
  have hr : (fetchFromReddit w sub (JSNum.num k) (getCachedKey sub (JSNum.num k))
      (cacheDelete c (getCachedKey sub (JSNum.num k))) now).result = .ok ⟨0, []⟩ := by
    simp [fetchFromReddit, hw, hfilter,
      jsSliceTo_nonneg ([] : List RedditPost) (by omega : (0 : Int) ≤ k)]
  have hm := fetchMemes_miss_reddit_ok hmiss hc hr
  rw [handler_valid w c now hparse hc hsub, hm]
  simp

/-- Witness for C6: a concrete world whose only candidate is stickied. -/
theorem c6_witness :
    (handler emptyPrimaryWorld "GET" ["memes"] ⟨[]⟩ 0).status = 404 ∧
    (handler emptyPrimaryWorld "GET" ["memes"] ⟨[]⟩ 0).body =
      .notFound "No memes found for this subreddit" 0 [] ∧
    (handler emptyPrimaryWorld "GET" ["memes"] ⟨[]⟩ 0).calls =
      [.reddit "memes" (redditLimit (JSNum.num 1))] :=
  c6_empty_results_404 emptyPrimaryWorld ["memes"] "memes" 1 ⟨[]⟩ 0 [stickyPost]
    rfl (by omega) (by omega) (by decide) rfl rfl (by decide)

/-- C7: on a successful primary response the fetcher issues exactly one
call with limit min(count*2, 100) and its result refines the spec-side
description: keep the candidates passing the spec filter, take the first
count of them in upstream order, map them to the output shape with the
stated defaults, and report their number as the count. -/
theorem c7_primary_refinement :
    ∀ (w : World) (sub : String) (k : Int) (key : String) (c : Cache) (now : Int)
      (posts : List RedditPost),
      w.reddit = .ok ⟨some ⟨some posts⟩⟩ → 1 ≤ k →
      (fetchFromReddit w sub (JSNum.num k) key c now).calls
        = [.reddit sub (JSNum.num (min (k * 2) 100))] ∧
      (fetchFromReddit w sub (JSNum.num k) key c now).result
        = .ok (specPrimary posts k) := by
  intro w sub k key c now posts hw h1
  constructor
  · rw [fetchFromReddit_calls]
    rfl
  · simp only [fetchFromReddit, hw]
    rw [jsSliceTo_nonneg (posts.filter redditFilter) (by omega : (0 : Int) ≤ k)]
    rw [redditFilter_eq_specFilter, toMemeItem_eq_specMap]
    rfl

/-- Witness for C7 at a concrete post list. -/
theorem c7_witness :
    (fetchFromReddit goodWorld "memes" (JSNum.num 1) "memes_1" ⟨[]⟩ 0).calls
      = [.reddit "memes" (JSNum.num (min (1 * 2) 100))] ∧
    (fetchFromReddit goodWorld "memes" (JSNum.num 1) "memes_1" ⟨[]⟩ 0).result
      = .ok (specPrimary [samplePost] 1) :=
  c7_primary_refinement goodWorld "memes" 1 "memes_1" ⟨[]⟩ 0 [samplePost] rfl (by omega)

/-- C1 counterexample: the fallback source responds successfully with a
present but empty memes array; no placeholder is synthesized, the
fetcher returns zero items, and the handler answers 404, so a request in
which the fallback flow succeeds can return no MemeItem at all. -/
theorem c1_counterexample :
    (fetchFallbackMemes emptyFallbackWorld "memes" (JSNum.num 5) "memes_5" ⟨[]⟩ 0).result
      = .ok ⟨0, []⟩ ∧
    (handler emptyFallbackWorld "GET" ["memes"] ⟨[]⟩ 0).body =
      .notFound "No memes found for this subreddit" 0 [] :=
  ⟨rfl, rfl⟩

/-- C1 amended: the placeholder (author sentinel fallback, static image)
is synthesized exactly when the memes field of the secondary response is
absent; a present but empty memes array yields an empty result, so a
successful fallback flow does not guarantee a non-empty response. -/
theorem c1_placeholder_amended :
    ∀ (w₁ w₂ : World) (sub : String) (k : Int) (key : String) (c : Cache) (now : Int),
      w₁.fallback = .ok ⟨none⟩ → w₂.fallback = .ok ⟨some []⟩ → 1 ≤ k →
      (fetchFallbackMemes w₁ sub (JSNum.num k) key c now).result
        = .ok ⟨1, [placeholderMeme sub]⟩ ∧
      (fetchFallbackMemes w₂ sub (JSNum.num k) key c now).result = .ok ⟨0, []⟩ := by
  intro w₁ w₂ sub k key c now h₁ h₂ hk
  constructor
  · rw [fetchFallbackMemes_ok sub (JSNum.num k) key c now h₁]
    simp only [fallbackResultSet]
    rw [jsSliceTo_nonneg [placeholderMeme sub] (by omega : (0 : Int) ≤ k)]
    rw [take_singleton_of_pos (placeholderMeme sub) (by omega : 1 ≤ k.toNat)]
    rfl
  · rw [fetchFallbackMemes_ok sub (JSNum.num k) key c now h₂]
    simp only [fallbackResultSet]
    rw [jsSliceTo_nonneg ([].map mapFallbackMeme) (by omega : (0 : Int) ≤ k)]
    simp

/-- Witness for C1 amended at concrete worlds. -/
theorem c1_witness :
    (fetchFallbackMemes placeholderWorld "memes" (JSNum.num 5) "memes_5" ⟨[]⟩ 0).result
      = .ok ⟨1, [placeholderMeme "memes"]⟩ ∧
    (fetchFallbackMemes emptyFallbackWorld "memes" (JSNum.num 5) "memes_5" ⟨[]⟩ 0).result
      = .ok ⟨0, []⟩ :=
  c1_placeholder_amended placeholderWorld emptyFallbackWorld "memes" 5 "memes_5" ⟨[]⟩ 0
    rfl rfl (by omega)

/-- C3: when the fallback source returns a memes array, the result count
field is the full length of that array while the memes field is the
truncation to the requested count, so with more items than requested the
reported count strictly exceeds the number of returned memes. -/
theorem c3_fallback_count_exceeds :
    ∀ (w : World) (sub : String) (key : String) (c : Cache) (now : Int)
      (ms : List FallbackMeme) (k : Int),
      w.fallback = .ok ⟨some ms⟩ → 1 ≤ k → k.toNat < ms.length →
      ∃ s, (fetchFallbackMemes w sub (JSNum.num k) key c now).result = .ok s ∧
        s.count = ms.length ∧
        s.memes = (ms.map mapFallbackMeme).take k.toNat ∧
        s.memes.length < s.count := by
  intro w sub key c now ms k hw h1 hlen
  refine ⟨fallbackResultSet ⟨some ms⟩ sub (JSNum.num k), ?_, ?_, ?_, ?_⟩
  · rw [fetchFallbackMemes_ok sub (JSNum.num k) key c now hw]
  · simp [fallbackResultSet]
  · simp only [fallbackResultSet]
    rw [jsSliceTo_nonneg (ms.map mapFallbackMeme) (by omega : (0 : Int) ≤ k)]
  · simp only [fallbackResultSet]
    rw [jsSliceTo_nonneg (ms.map mapFallbackMeme) (by omega : (0 : Int) ≤ k)]
    rw [List.length_take]
    simp only [List.length_map]
    omega

/-- Witness for C3 at a concrete two-item fallback response truncated to
one item. -/
theorem c3_witness :
    ∃ s, (fetchFallbackMemes
        ⟨.httpError 500 "down",
         .ok ⟨some [⟨"l1", "memes", "t1", "u1", some false, some false, some "a1", some 1⟩,
                    ⟨"l2", "memes", "t2", "u2", some false, some false, some "a2", some 2⟩]⟩⟩
        "memes" (JSNum.num 1) "memes_1" ⟨[]⟩ 0).result = .ok s ∧
      s.count = 2 ∧
      s.memes = ([⟨"l1", "memes", "t1", "u1", some false, some false, some "a1", some 1⟩,
                  ⟨"l2", "memes", "t2", "u2", some false, some false, some "a2", some 2⟩].map
          mapFallbackMeme).take 1 ∧
      s.memes.length < s.count := by
  have h := c3_fallback_count_exceeds
    ⟨.httpError 500 "down",
     .ok ⟨some [⟨"l1", "memes", "t1", "u1", some false, some false, some "a1", some 1⟩,
                ⟨"l2", "memes", "t2", "u2", some false, some false, some "a2", some 2⟩]⟩⟩
    "memes" "memes_1" ⟨[]⟩ 0
    [⟨"l1", "memes", "t1", "u1", some false, some false, some "a1", some 1⟩,
     ⟨"l2", "memes", "t2", "u2", some false, some false, some "a2", some 2⟩] 1
    rfl (by omega) (by decide)
  obtain ⟨s, hs1, hs2, hs3, hs4⟩ := h
  exact ⟨s, hs1, by rw [hs2]; rfl, by simpa using hs3, hs4⟩

/-- C5 counterexample: the primary call returns the blocking status 403
and the fallback call succeeds with a present but empty memes array; the
fallback fetcher is invoked, yet its result is not returned with status
200: the handler answers 404. -/
theorem c5_counterexample :
    (handler emptyFallbackWorld "GET" ["memes"] ⟨[]⟩ 0).status = 404 ∧
    (handler emptyFallbackWorld "GET" ["memes"] ⟨[]⟩ 0).calls =
      [.reddit "memes" (JSNum.num 2), .fallbackApi "memes" (JSNum.num 1)] :=
  ⟨rfl, rfl⟩

/-- C5 amended: on a blocking 403 from the primary source the fallback
fetcher is always invoked; when it succeeds with a non-empty result
(including the synthesized placeholder) that result is returned with
status 200, when it succeeds with an empty memes array the handler
answers 404, and when it fails the handler answers 500 carrying the
fallback failure message, never the primary raw error. -/
theorem c5_blocking_fallback_amended :
    ∀ (w : World) (parts : List String) (sub : String) (k : Int) (c : Cache) (now : Int)
      (txt : String),
      parsePath parts = (sub, JSNum.num k) → 1 ≤ k → k ≤ 100 →
      validSubreddit sub = true →
      cacheLookup c (getCachedKey sub (JSNum.num k)) = none →
      w.reddit = .httpError 403 txt →
      (handler w "GET" parts c now).calls
        = [.reddit sub (redditLimit (JSNum.num k)), .fallbackApi sub (JSNum.num k)] ∧
      (∀ body, w.fallback = .ok body →
        ((fallbackResultSet body sub (JSNum.num k)).memes ≠ [] →
          (handler w "GET" parts c now).status = 200 ∧
          (handler w "GET" parts c now).body
            = .success (fallbackResultSet body sub (JSNum.num k))) ∧
        ((fallbackResultSet body sub (JSNum.num k)).memes = [] →
          (handler w "GET" parts c now).status = 404)) ∧
      (fallbackFails w.fallback = true →
        (handler w "GET" parts c now).status = 500 ∧
        (handler w "GET" parts c now).body
          = .serverError "Internal server error" (fallbackErrMsg w.fallback)) := by
  intro w parts sub k c now txt hparse h1 h2 hsub hmiss hw
  have hc := countOutOfRange_num_false h1 h2
  have hr : (fetchFromReddit w sub (JSNum.num k) (getCachedKey sub (JSNum.num k))
      (cacheDelete c (getCachedKey sub (JSNum.num k))) now).result
      = .error redditBlockedMsg := by
    simp [fetchFromReddit, hw]
  have hm := fetchMemes_miss_reddit_err hmiss hc hr
  rw [handler_valid w c now hparse hc hsub, hm]
  refine ⟨?_, ?_, ?_⟩
  · cases hfr : (fetchFallbackMemes w sub (JSNum.num k) (getCachedKey sub (JSNum.num k))
        (cacheDelete c (getCachedKey sub (JSNum.num k))) now).result with
    | error e => simp [hfr]
    | ok r => by_cases hlen : r.memes.length = 0 <;> simp [hfr, hlen]
  · intro body hbody
    rw [fetchFallbackMemes_ok sub (JSNum.num k) (getCachedKey sub (JSNum.num k))
        (cacheDelete c (getCachedKey sub (JSNum.num k))) now hbody]
    constructor
    · intro hne
      have hlen0 : ¬((fallbackResultSet body sub (JSNum.num k)).memes.length = 0) := by
        rw [List.length_eq_zero]
        exact hne
      simp [hlen0]
    · intro he
      simp [he]
  · intro hff
    rw [fetchFallbackMemes_err sub (JSNum.num k) (getCachedKey sub (JSNum.num k))
        (cacheDelete c (getCachedKey sub (JSNum.num k))) now hff]
    exact ⟨rfl, rfl⟩

/-- Witness for C5 amended: blocked primary, fallback body without a
memes field, placeholder returned with status 200. -/
theorem c5_witness :
    (handler placeholderWorld "GET" ["memes"] ⟨[]⟩ 0).status = 200 ∧
    (handler placeholderWorld "GET" ["memes"] ⟨[]⟩ 0).body
      = .success (fallbackResultSet ⟨none⟩ "memes" (JSNum.num 1)) :=
  ((c5_blocking_fallback_amended placeholderWorld ["memes"] "memes" 1 ⟨[]⟩ 0 "blocked"
      rfl (by omega) (by omega) (by decide) rfl rfl).2.1 ⟨none⟩ rfl).1 (by decide)

/-- C9: when the primary call fails in any way and the fallback call also
fails, the handler returns status 500 with a body carrying both the
generic error field and a message field holding the failure message. -/
theorem c9_both_fail_500 :
    ∀ (w : World) (parts : List String) (sub : String) (k : Int) (c : Cache) (now : Int),
      parsePath parts = (sub, JSNum.num k) → 1 ≤ k → k ≤ 100 →
      validSubreddit sub = true →
      cacheLookup c (getCachedKey sub (JSNum.num k)) = none →
      primaryFails w.reddit = true →
      fallbackFails w.fallback = true →
      (handler w "GET" parts c now).status = 500 ∧
      (handler w "GET" parts c now).body
        = .serverError "Internal server error" (fallbackErrMsg w.fallback) := by
  intro w parts sub k c now hparse h1 h2 hsub hmiss hpf hff
  have hc := countOutOfRange_num_false h1 h2
  obtain ⟨e, hre⟩ := fetchFromReddit_err sub (JSNum.num k) (getCachedKey sub (JSNum.num k))
      (cacheDelete c (getCachedKey sub (JSNum.num k))) now hpf
  have hr : (fetchFromReddit w sub (JSNum.num k) (getCachedKey sub (JSNum.num k))
      (cacheDelete c (getCachedKey sub (JSNum.num k))) now).result = .error e := by
    rw [hre]
  have hm := fetchMemes_miss_reddit_err hmiss hc hr
  rw [handler_valid w c now hparse hc hsub, hm]
  rw [fetchFallbackMemes_err sub (JSNum.num k) (getCachedKey sub (JSNum.num k))
      (cacheDelete c (getCachedKey sub (JSNum.num k))) now hff]
  exact ⟨rfl, rfl⟩

/-- Witness for C9 at a concrete world in which both calls fail. -/
theorem c9_witness :
    (handler bothFailWorld "GET" ["memes"] ⟨[]⟩ 0).status = 500 ∧
    (handler bothFailWorld "GET" ["memes"] ⟨[]⟩ 0).body
      = .serverError "Internal server error" (fallbackErrMsg bothFailWorld.fallback) :=
  c9_both_fail_500 bothFailWorld ["memes"] "memes" 1 ⟨[]⟩ 0 rfl (by omega) (by omega)
    (by decide) rfl rfl rfl

/-- C4: the cache get operation returns the stored payload exactly when
the entry exists and is younger than the TTL, and otherwise deletes the
entry and reports absent; consequently a successful uncached request
stores its payload, an identical request within the TTL window returns
the identical payload with no outbound call, and an identical request at
or past the TTL expiry issues a new outbound call. -/
theorem c4_cache_ttl :
    (∀ (c : Cache) (key : String) (now : Int) (e : CacheEntry),
        cacheLookup c key = some e →
        (now - e.timestamp < CACHE_DURATION → getFromCache c key now = (some e.data, c)) ∧
        (CACHE_DURATION ≤ now - e.timestamp →
          getFromCache c key now = (none, cacheDelete c key))) ∧
    (∀ (c : Cache) (key : String) (now : Int),
        cacheLookup c key = none → getFromCache c key now = (none, cacheDelete c key)) ∧
    (∀ (w₁ w₂ : World) (parts : List String) (sub : String) (k : Int) (c₀ : Cache)
        (t t' : Int),
        parsePath parts = (sub, JSNum.num k) → 1 ≤ k → k ≤ 100 →
        validSubreddit sub = true →
        cacheLookup c₀ (getCachedKey sub (JSNum.num k)) = none →
        (handler w₁ "GET" parts c₀ t).status = 200 →
        (handler w₁ "GET" parts c₀ t).calls ≠ [] ∧
        (t' - t < CACHE_DURATION →
          handler w₂ "GET" parts (handler w₁ "GET" parts c₀ t).cache t' =
            ⟨200, (handler w₁ "GET" parts c₀ t).body,
              (handler w₁ "GET" parts c₀ t).cache, []⟩) ∧
        (CACHE_DURATION ≤ t' - t →
          (handler w₂ "GET" parts (handler w₁ "GET" parts c₀ t).cache t').calls ≠ [])) := by
  refine ⟨?_, ?_, ?_⟩
  · intro c key now e hfound
    exact ⟨fun hfresh => getFromCache_fresh hfound hfresh,
           fun hstale => getFromCache_stale hfound hstale⟩
  · intro c key now hnone
    exact getFromCache_none now hnone
  · intro w₁ w₂ parts sub k c₀ t t' hparse h1 h2 hsub hmiss h200
    have hc := countOutOfRange_num_false h1 h2
    obtain ⟨p, hres, hplen, hh⟩ := handler_200 hparse hc hsub h200
    obtain ⟨hstore, hcalls⟩ := fetchMemes_store_of_miss hmiss hc hres
    have hcache : (handler w₁ "GET" parts c₀ t).cache
        = (fetchMemes w₁ sub (JSNum.num k) c₀ t).cache := by rw [hh]
    have hbody : (handler w₁ "GET" parts c₀ t).body = .success p := by rw [hh]
    have hcalls₁ : (handler w₁ "GET" parts c₀ t).calls
        = (fetchMemes w₁ sub (JSNum.num k) c₀ t).calls := by rw [hh]
    refine ⟨?_, ?_, ?_⟩
    · rw [hcalls₁]
      exact hcalls
    · intro hfresh
      rw [hcache, hbody]
      have hhit := fetchMemes_hit w₂ t' hstore hfresh hc
      rw [handler_valid w₂ _ t' hparse hc hsub, hhit]
      have hlen : ¬(p.memes.length = 0) := hplen
      simp [hlen]
    · intro hstale
      rw [hcache]
      have hnone1 : (getFromCache (fetchMemes w₁ sub (JSNum.num k) c₀ t).cache
          (getCachedKey sub (JSNum.num k)) t').1 = none := by
        rw [getFromCache_stale hstore hstale]
      have hcalls₂ := fetchMemes_calls_of_miss (w := w₂) hnone1 hc
      rw [handler_valid w₂ _ t' hparse hc hsub]
      cases hres₂ : (fetchMemes w₂ sub (JSNum.num k)
          (fetchMemes w₁ sub (JSNum.num k) c₀ t).cache t').result with
      | error e => simpa using hcalls₂
      | ok r =>
          by_cases hlen : r.memes.length = 0
          · simpa [hlen] using hcalls₂
          · simpa [hlen] using hcalls₂

/-- Witness for C4: a concrete cached request replayed inside and at the
end of the TTL window. -/
theorem c4_witness :
    (handler goodWorld "GET" ["memes"] ⟨[]⟩ 0).calls ≠ [] ∧
    handler bothFailWorld "GET" ["memes"] (handler goodWorld "GET" ["memes"] ⟨[]⟩ 0).cache 1000
      = ⟨200, (handler goodWorld "GET" ["memes"] ⟨[]⟩ 0).body,
          (handler goodWorld "GET" ["memes"] ⟨[]⟩ 0).cache, []⟩ ∧
    (handler bothFailWorld "GET" ["memes"]
        (handler goodWorld "GET" ["memes"] ⟨[]⟩ 0).cache 300000).calls ≠ [] := by
  have hA := c4_cache_ttl.2.2 goodWorld bothFailWorld ["memes"] "memes" 1 ⟨[]⟩ 0 1000
    rfl (by omega) (by omega) (by decide) rfl (by decide)
  have hB := c4_cache_ttl.2.2 goodWorld bothFailWorld ["memes"] "memes" 1 ⟨[]⟩ 0 300000
    rfl (by omega) (by omega) (by decide) rfl (by decide)
  exact ⟨hA.1, hA.2.1 (by decide), hB.2.2 (by decide)⟩
